import Mathlib

/-!
Shallow embedding of the Bilibili video-summary web UI
(src/webui/src/components/App.tsx): the URL format validator, the
debounce hook, the validation effect, the submission handler and the
render selector, together with an event-step semantics over the
component's state.  JavaScript string truthiness is modelled by
comparison with the empty string, and the boolean-like success field of
the backend response by Bool.
-/

namespace BiliSummary

/-- The literal tested by the validator (App.tsx line 24). -/
def biliVideoLit : String := "https://www.bilibili.com/video"

/-- Modelled on JavaScript String.prototype.startsWith: a character-level
test that the characters of p occur at the very start of s (the literal
used in App.tsx is ASCII, so JS UTF-16 code-unit semantics and Lean
character semantics agree). -/
def jsStartsWith (s p : String) : Bool :=
  p.data.isPrefixOf s.data

/-- URL validator of App.tsx lines 23-25:
url.startsWith of the literal https prefix of Bilibili video pages. -/
def isValidBiliUrl (url : String) : Bool :=
  jsStartsWith url biliVideoLit

/-- Message set by the validation effect (App.tsx line 40). -/
def urlErrorMsg : String := "URL必须以 https://www.bilibili.com/video 开头"

/-- Message for submitting with an empty debounced URL (App.tsx line 51). -/
def emptyInputMsg : String := "请输入视频URL"

/-- Message for submitting with an invalid debounced URL (App.tsx line 56). -/
def invalidFormatMsg : String := "URL格式不正确"

/-- Fallback message when the backend reports failure without an error
field (App.tsx line 78). -/
def summaryFailMsg : String := "总结失败"

/-- Message stored when fetch or JSON parsing throws (App.tsx line 81). -/
def networkFailMsg : String := "网络请求失败，请检查服务器是否运行"

/-- The component state of App: the five useState slots plus the derived
debounced URL (App.tsx lines 28-35). -/
structure AppState where
  url : String
  isLoading : Bool
  summary : String
  error : String
  urlError : String
  debouncedUrl : String
deriving DecidableEq

/-- State at component mount: every string slot empty, not loading
(App.tsx lines 28-35; useDebounce initialises the debounced value to the
initial url). -/
def initialState : AppState :=
  { url := "", isLoading := false, summary := "", error := "",
    urlError := "", debouncedUrl := "" }

/-- Parsed JSON body of the backend response: a boolean-like success
field, a summary field and an error field; an absent or falsy error
field is modelled by the empty string (spec section 6). -/
structure ApiResponse where
  success : Bool
  summary : String
  error : String
deriving DecidableEq

/-- Outcome of the fetch plus JSON parse inside the try block: either a
parsed body, or a thrown exception (network failure or non-JSON body). -/
inductive FetchOutcome where
  | ok (data : ApiResponse)
  | thrown
deriving DecidableEq

/-- The one HTTP request App can issue (App.tsx lines 65-71); bodyUrl is
the url field of the JSON body JSON.stringify of the url-record builds. -/
structure Request where
  method : String
  endpoint : String
  contentType : String
  bodyUrl : String
deriving DecidableEq

/-- Synchronous phase of handleSubmit (App.tsx lines 50-71): the two
short-circuiting precondition checks, then entering Loading, clearing
error and summary and issuing the POST request. -/
def handleSubmitStart (s : AppState) : AppState × Option Request :=
  if s.debouncedUrl = "" then
    ({ s with error := emptyInputMsg }, none)
  else if isValidBiliUrl s.debouncedUrl = false then
    ({ s with error := invalidFormatMsg }, none)
  else
    ({ s with isLoading := true, error := "", summary := "" },
     some { method := "POST", endpoint := "/api/summary_bili",
            contentType := "application/json", bodyUrl := s.debouncedUrl })

/-- Settling phase of handleSubmit (App.tsx lines 73-85): response or
exception handling, then the finally block clearing Loading. -/
def handleSubmitSettle (s : AppState) (o : FetchOutcome) : AppState :=
  let s1 :=
    match o with
    | FetchOutcome.ok data =>
        if data.success then
          { s with summary := data.summary }
        else
          { s with error := if data.error = "" then summaryFailMsg else data.error }
    | FetchOutcome.thrown => { s with error := networkFailMsg }
  { s1 with isLoading := false }

/-- The whole handleSubmit (App.tsx lines 47-86): the settling phase runs
exactly when the start phase issued a request. -/
def handleSubmit (s : AppState) (o : FetchOutcome) : AppState × Option Request :=
  match handleSubmitStart s with
  | (s1, none) => (s1, none)
  | (s1, some r) => (handleSubmitSettle s1 o, some r)

/-- Validation effect run when the debounced URL changes (App.tsx lines
38-44). -/
def validateUrlEffect (s : AppState) : AppState :=
  if s.debouncedUrl ≠ "" ∧ isValidBiliUrl s.debouncedUrl = false then
    { s with urlError := urlErrorMsg }
  else
    { s with urlError := "" }

/-- The spinner panel renders iff isLoading (App.tsx line 143). -/
def spinnerVisible (s : AppState) : Bool :=
  s.isLoading

/-- The error panel renders iff error is truthy and not loading
(App.tsx line 154). -/
def errorPanelVisible (s : AppState) : Bool :=
  (s.error != "") && !s.isLoading

/-- The summary panel renders iff summary is truthy and not loading
(App.tsx line 178). -/
def summaryPanelVisible (s : AppState) : Bool :=
  (s.summary != "") && !s.isLoading

/-- The URL input control's disabled attribute (App.tsx line 126). -/
def inputDisabled (s : AppState) : Bool :=
  s.isLoading

/-- The submit button's disabled attribute (App.tsx line 134). -/
def submitDisabled (s : AppState) : Bool :=
  s.isLoading || (s.debouncedUrl == "") || (s.urlError != "")

/-- Events driving the component: a keystroke replacing the input value
(a no-op while the input is disabled during loading), the debounce timer
firing, the validation effect running, a form submission starting, and an
in-flight request settling with an outcome. -/
inductive Event where
  | setUrl (v : String)
  | debounceFire
  | validate
  | submitStart
  | submitSettle (o : FetchOutcome)

/-- One step of the component: how each event transforms the state. -/
def step (s : AppState) : Event → AppState
  | Event.setUrl v => if s.isLoading then s else { s with url := v }
  | Event.debounceFire => { s with debouncedUrl := s.url }
  | Event.validate => validateUrlEffect s
  | Event.submitStart => (handleSubmitStart s).1
  | Event.submitSettle o => if s.isLoading then handleSubmitSettle s o else s

/-- Running a sequence of events from the mount state. -/
def run (evs : List Event) : AppState :=
  evs.foldl step initialState

/-- A view state is reachable when some event sequence from mount
produces it. -/
def Reachable (s : AppState) : Prop :=
  ∃ evs, run evs = s

/-- A concrete valid video URL used in witnesses. -/
def demoUrl : String := "https://www.bilibili.com/video/BV1GJ411x7h7"

/-- A concrete markdown summary used in witnesses. -/
def demoSummary : String := "# 视频总结"

/-- Event sequence: submit the demo URL successfully, then clear the
input, let the debounce settle and submit again. -/
def clashEvents : List Event :=
  [Event.setUrl demoUrl, Event.debounceFire, Event.validate,
   Event.submitStart,
   Event.submitSettle (FetchOutcome.ok
     { success := true, summary := demoSummary, error := "" }),
   Event.setUrl "", Event.debounceFire, Event.validate,
   Event.submitStart]

/-- The state reached by clashEvents: summary and error non-empty at
once, not loading. -/
def clashState : AppState :=
  run clashEvents

/-- Event sequence reaching a loading state. -/
def loadingEvents : List Event :=
  [Event.setUrl demoUrl, Event.debounceFire, Event.validate,
   Event.submitStart]

/-- The mid-flight state reached by loadingEvents. -/
def loadingState : AppState :=
  run loadingEvents

/-- State of the debounce hook: the published debounced value and the
pending timeout, if any, as the scheduled value paired with the time
remaining until it fires (App.tsx lines 6-20). -/
structure DebounceState (T : Type) where
  debounced : T
  timer : Option (T × Nat)
deriving DecidableEq

/-- The hook's effect on an input change: clearTimeout of any pending
update, setTimeout of a fresh one publishing the new value after delay
(App.tsx lines 9-17). -/
def dChange {T : Type} (delay : Nat) (st : DebounceState T) (v : T) : DebounceState T :=
  { st with timer := some (v, delay) }

/-- The passage of d time units: a pending timeout fires once its
remaining time is spent, publishing its value; otherwise its remaining
time shrinks. -/
def dElapse {T : Type} (st : DebounceState T) (d : Nat) : DebounceState T :=
  match st.timer with
  | none => st
  | some (v, r) =>
      if r ≤ d then { debounced := v, timer := none }
      else { st with timer := some (v, r - d) }

/-- The effect cleanup at teardown: clearTimeout of the pending update
(App.tsx lines 14-16). -/
def dUnmount {T : Type} (st : DebounceState T) : DebounceState T :=
  { st with timer := none }

/-- Running a rapid typing session: for each pair (v, g) the input
changes to v and then g time units pass before the next change. -/
def runSeq {T : Type} (delay : Nat) (st : DebounceState T) (evs : List (T × Nat)) : DebounceState T :=
  evs.foldl (fun acc p => dElapse (dChange delay acc p.1) p.2) st

/-- The delay App passes to useDebounce (App.tsx line 35). -/
def appDelay : Nat := 300

/-- A state whose debounced URL is non-empty and fails the validator. -/
def badUrlState : AppState :=
  { initialState with url := "http://x", debouncedUrl := "http://x" }

/-- A state whose debounced URL passes the validator. -/
def okState : AppState :=
  { initialState with url := demoUrl, debouncedUrl := demoUrl }

/-- A state holding a previously fetched summary with an empty debounced
URL. -/
def sumState : AppState :=
  { initialState with summary := demoSummary }

/-- The mount state of the debounce hook for an initially empty input. -/
def dInit : DebounceState String :=
  { debounced := "", timer := none }

/-- A rapid typing session: three keystrokes, each followed by a pause
shorter than the 300-unit window. -/
def demoKeys : List (String × Nat) :=
  [("a", 100), ("ab", 200), ("abc", 50)]

/-- The urlError slot after the validation effect, as one conditional. -/
theorem validateUrlEffect_urlError (s : AppState) :
    (validateUrlEffect s).urlError =
      if s.debouncedUrl ≠ "" ∧ isValidBiliUrl s.debouncedUrl = false
      then urlErrorMsg else "" := by
  unfold validateUrlEffect
  split <;> rfl

/-- C1: the validator isValidBiliUrl returns true exactly on the strings
formed by the literal Bilibili video https prefix followed by an
arbitrary suffix, hence false on every string not starting with that
literal. -/
theorem isValidBiliUrl_iff_exists_rest (url : String) :
    isValidBiliUrl url = true ↔ ∃ rest : String, url = biliVideoLit ++ rest := by
  unfold isValidBiliUrl jsStartsWith
  rw [List.isPrefixOf_iff_prefix]
  constructor
  · rintro ⟨t, ht⟩
    exact ⟨String.mk t, String.ext (by simpa using ht.symm)⟩
  · rintro ⟨rest, rfl⟩
    exact ⟨rest.data, (String.data_append _ _).symm⟩

/-- The validator accepts the demo URL: an instance of C1 at a concrete
input. -/
theorem isValidBiliUrl_iff_exists_rest_witness :
    isValidBiliUrl demoUrl = true :=
  (isValidBiliUrl_iff_exists_rest demoUrl).mpr ⟨"/BV1GJ411x7h7", by decide⟩

/-- C2: invoked with an empty debounced URL, handleSubmit stores the
fixed empty-input message and returns with no request and Loading
untouched; invoked with a non-empty debounced URL failing the validator,
it stores the fixed invalid-format message and likewise returns with no
request; the empty check fires first, so an empty URL (which also fails
the validator) still gets the empty-input message. -/
theorem handleSubmit_precondition_aborts (s : AppState) (o : FetchOutcome) :
    (s.debouncedUrl = "" →
      handleSubmit s o = ({ s with error := emptyInputMsg }, none))
    ∧ (s.debouncedUrl ≠ "" → isValidBiliUrl s.debouncedUrl = false →
      handleSubmit s o = ({ s with error := invalidFormatMsg }, none)) := by
  constructor
  · intro h
    simp [handleSubmit, handleSubmitStart, h]
  · intro h1 h2
    simp [handleSubmit, handleSubmitStart, h1, h2]

/-- C2 at concrete states: the mount state submits to the empty-input
message, a malformed URL to the invalid-format message, both without a
request. -/
theorem handleSubmit_precondition_aborts_witness :
    handleSubmit initialState FetchOutcome.thrown
      = ({ initialState with error := emptyInputMsg }, none)
    ∧ handleSubmit badUrlState FetchOutcome.thrown
      = ({ badUrlState with error := invalidFormatMsg }, none) :=
  ⟨(handleSubmit_precondition_aborts initialState FetchOutcome.thrown).1 rfl,
   (handleSubmit_precondition_aborts badUrlState FetchOutcome.thrown).2
     (by decide) (by decide)⟩

/-- C3: on a parsed response with truthy success the summary field is
stored and the error stays empty; with falsy success the error field (or
the fixed fallback when that field is falsy) is stored and the summary
stays empty; when fetch or parse throws, the fixed network-failure
message is stored. -/
theorem handleSubmit_response_handling (s : AppState) (data : ApiResponse)
    (h1 : s.debouncedUrl ≠ "") (h2 : isValidBiliUrl s.debouncedUrl = true) :
    (data.success = true →
      (handleSubmit s (FetchOutcome.ok data)).1.summary = data.summary
      ∧ (handleSubmit s (FetchOutcome.ok data)).1.error = "")
    ∧ (data.success = false →
      (handleSubmit s (FetchOutcome.ok data)).1.error
          = (if data.error = "" then summaryFailMsg else data.error)
      ∧ (handleSubmit s (FetchOutcome.ok data)).1.summary = "")
    ∧ ((handleSubmit s FetchOutcome.thrown).1.error = networkFailMsg
      ∧ (handleSubmit s FetchOutcome.thrown).1.summary = "") := by
  refine ⟨fun hs => ?_, fun hs => ?_, ?_⟩
  · simp [handleSubmit, handleSubmitStart, handleSubmitSettle, h1, h2, hs]
  · simp [handleSubmit, handleSubmitStart, handleSubmitSettle, h1, h2, hs]
  · simp [handleSubmit, handleSubmitStart, handleSubmitSettle, h1, h2]

/-- C3 at a concrete state: the three response shapes at the demo URL. -/
theorem handleSubmit_response_handling_witness :
    ((handleSubmit okState
        (FetchOutcome.ok { success := true, summary := demoSummary, error := "" })).1.summary
      = demoSummary)
    ∧ ((handleSubmit okState
        (FetchOutcome.ok { success := false, summary := "", error := "" })).1.error
      = summaryFailMsg)
    ∧ ((handleSubmit okState FetchOutcome.thrown).1.error = networkFailMsg) :=
  ⟨((handleSubmit_response_handling okState
      { success := true, summary := demoSummary, error := "" }
      (by decide) (by decide)).1 rfl).1,
   by
     have h := ((handleSubmit_response_handling okState
       { success := false, summary := "", error := "" }
       (by decide) (by decide)).2.1 rfl).1
     simpa using h,
   (handleSubmit_response_handling okState
      { success := true, summary := "", error := "" }
      (by decide) (by decide)).2.2.1⟩

/-- C4: whenever both precondition checks pass, Loading is false once the
handler settles, for every fetch outcome (the finally block always
runs). -/
theorem handleSubmit_clears_loading (s : AppState) (o : FetchOutcome)
    (h1 : s.debouncedUrl ≠ "") (h2 : isValidBiliUrl s.debouncedUrl = true) :
    (handleSubmit s o).1.isLoading = false := by
  cases o <;>
    simp [handleSubmit, handleSubmitStart, handleSubmitSettle, h1, h2]

/-- C4 at a concrete state: after a thrown fetch on the demo URL, Loading
is false. -/
theorem handleSubmit_clears_loading_witness :
    (handleSubmit okState FetchOutcome.thrown).1.isLoading = false :=
  handleSubmit_clears_loading okState FetchOutcome.thrown (by decide) (by decide)

/-- C5 counterexample: submitting the demo URL successfully and then
submitting again after clearing the input reaches a state in which the
error panel and the summary panel are both rendered at once, refuting
the claimed mutual exclusion of the result panels in reachable states. -/
theorem panels_not_mutually_exclusive :
    Reachable clashState
    ∧ errorPanelVisible clashState = true
    ∧ summaryPanelVisible clashState = true :=
  ⟨⟨clashEvents, rfl⟩, by decide, by decide⟩

/-- C5 amended: the spinner has precedence over the other panels, and
while Loading both the error panel and the summary panel are hidden; but
once Loading is false the error panel renders exactly when the
submission error is non-empty and the summary panel exactly when the
Summary is non-empty, independently of each other, so the two can be
shown simultaneously. -/
theorem render_selector_precedence (s : AppState) :
    (s.isLoading = true →
      spinnerVisible s = true ∧ errorPanelVisible s = false
      ∧ summaryPanelVisible s = false)
    ∧ (s.isLoading = false →
      (errorPanelVisible s = true ↔ s.error ≠ "")
      ∧ (summaryPanelVisible s = true ↔ s.summary ≠ "")) := by
  constructor
  · intro h
    simp [spinnerVisible, errorPanelVisible, summaryPanelVisible, h]
  · intro h
    simp [errorPanelVisible, summaryPanelVisible, h]

/-- C5 amended at concrete states: the mid-flight state shows only the
spinner; the mount state shows neither panel. -/
theorem render_selector_precedence_witness :
    (spinnerVisible loadingState = true ∧ errorPanelVisible loadingState = false
      ∧ summaryPanelVisible loadingState = false)
    ∧ ((errorPanelVisible initialState = true ↔ initialState.error ≠ "")
      ∧ (summaryPanelVisible initialState = true ↔ initialState.summary ≠ "")) :=
  ⟨(render_selector_precedence loadingState).1 (by decide),
   (render_selector_precedence initialState).2 rfl⟩

/-- C6: after the validation effect runs, the validation error is
non-empty exactly when the debounced URL is non-empty and fails the
validator; it is the fixed user-facing message in that case and empty in
the two clearing cases. -/
theorem validateUrlEffect_spec (s : AppState) :
    ((validateUrlEffect s).urlError ≠ "" ↔
      (s.debouncedUrl ≠ "" ∧ isValidBiliUrl s.debouncedUrl = false))
    ∧ (s.debouncedUrl = "" → (validateUrlEffect s).urlError = "")
    ∧ (s.debouncedUrl ≠ "" → isValidBiliUrl s.debouncedUrl = false →
        (validateUrlEffect s).urlError = urlErrorMsg)
    ∧ (s.debouncedUrl ≠ "" → isValidBiliUrl s.debouncedUrl = true →
        (validateUrlEffect s).urlError = "") := by
  have hmsg : urlErrorMsg ≠ "" := by decide
  by_cases h : s.debouncedUrl ≠ "" ∧ isValidBiliUrl s.debouncedUrl = false
  · rw [validateUrlEffect_urlError, if_pos h]
    exact ⟨iff_of_true hmsg h,
           fun he => absurd he h.1,
           fun _ _ => rfl,
           fun _ hv => by rw [h.2] at hv; exact Bool.noConfusion hv⟩
  · rw [validateUrlEffect_urlError, if_neg h]
    exact ⟨iff_of_false (by simp) h,
           fun _ => rfl,
           fun hne hv => absurd ⟨hne, hv⟩ h,
           fun _ _ => rfl⟩

/-- C6 at concrete states: a malformed debounced URL yields the fixed
message, the empty debounced URL and the demo URL clear the error. -/
theorem validateUrlEffect_spec_witness :
    (validateUrlEffect badUrlState).urlError = urlErrorMsg
    ∧ (validateUrlEffect initialState).urlError = ""
    ∧ (validateUrlEffect okState).urlError = "" :=
  ⟨(validateUrlEffect_spec badUrlState).2.2.1 (by decide) (by decide),
   (validateUrlEffect_spec initialState).2.1 rfl,
   (validateUrlEffect_spec okState).2.2.2 (by decide) (by decide)⟩

/-- C7: when both precondition checks pass, handleSubmit clears the error
and the summary, sets Loading, and issues exactly one POST to
/api/summary_bili with Content-Type application/json and the debounced
URL as the url field of the JSON body. -/
theorem handleSubmit_issues_post (s : AppState)
    (h1 : s.debouncedUrl ≠ "") (h2 : isValidBiliUrl s.debouncedUrl = true) :
    handleSubmitStart s =
      ({ s with isLoading := true, error := "", summary := "" },
       some { method := "POST", endpoint := "/api/summary_bili",
              contentType := "application/json", bodyUrl := s.debouncedUrl }) := by
  simp [handleSubmitStart, h1, h2]

/-- C7 at a concrete state: the request issued for the demo URL. -/
theorem handleSubmit_issues_post_witness :
    handleSubmitStart okState =
      ({ okState with isLoading := true, error := "", summary := "" },
       some { method := "POST", endpoint := "/api/summary_bili",
              contentType := "application/json", bodyUrl := demoUrl }) :=
  handleSubmit_issues_post okState (by decide) (by decide)

/-- One rapid step: a change followed by a pause shorter than the delay
leaves the published value alone and a pending timer for the new value. -/
theorem dStep_rapid {T : Type} (delay : Nat) (st : DebounceState T) (v : T)
    (g : Nat) (hg : g < delay) :
    dElapse (dChange delay st v) g =
      { debounced := st.debounced, timer := some (v, delay - g) } := by
  unfold dChange dElapse
  simp [Nat.not_le.mpr hg]

/-- During a rapid typing session the published debounced value never
changes. -/
theorem runSeq_rapid_debounced {T : Type} (delay : Nat)
    (evs : List (T × Nat)) (h : ∀ p ∈ evs, p.2 < delay)
    (st : DebounceState T) :
    (runSeq delay st evs).debounced = st.debounced := by
  induction evs generalizing st with
  | nil => rfl
  | cons p tl ih =>
      have hp : p.2 < delay := h p (List.mem_cons_self ..)
      have htl : ∀ q ∈ tl, q.2 < delay := fun q hq => h q (List.mem_cons_of_mem _ hq)
      show (runSeq delay (dElapse (dChange delay st p.1) p.2) tl).debounced
        = st.debounced
      rw [ih htl, dStep_rapid delay st p.1 p.2 hp]

/-- After a non-empty rapid typing session the pending timer holds the
final value, with the last pause already spent. -/
theorem runSeq_rapid_timer {T : Type} (delay : Nat)
    (evs : List (T × Nat)) (h : ∀ p ∈ evs, p.2 < delay) (hne : evs ≠ [])
    (st : DebounceState T) :
    (runSeq delay st evs).timer
      = some ((evs.getLast hne).1, delay - (evs.getLast hne).2) := by
  induction evs generalizing st with
  | nil => exact absurd rfl hne
  | cons p tl ih =>
      cases tl with
      | nil =>
          show (dElapse (dChange delay st p.1) p.2).timer = _
          rw [dStep_rapid delay st p.1 p.2 (h p (List.mem_cons_self ..))]
          rfl
      | cons q tl2 =>
          have htl : ∀ r ∈ q :: tl2, r.2 < delay :=
            fun r hr => h r (List.mem_cons_of_mem _ hr)
          show (runSeq delay (dElapse (dChange delay st p.1) p.2)
            (q :: tl2)).timer = _
          rw [ih htl (by simp)]
          simp [List.getLast_cons]

/-- C8: over any sequence of input changes each followed by a pause
shorter than the 300-unit window, no intermediate value is ever adopted
as the debounced value (the published value is unchanged after every
stage of the run); once the input then stays stable for the full 300
units, the final value of the sequence is adopted; tearing the component
down cancels the pending update without publishing it; and a further
change replaces the pending update with one for the new value. -/
theorem useDebounce_rapid_sequence {T : Type} (st : DebounceState T)
    (evs : List (T × Nat)) (h : ∀ p ∈ evs, p.2 < appDelay) :
    (∀ a b : List (T × Nat), evs = a ++ b →
        (runSeq appDelay st a).debounced = st.debounced)
    ∧ (∀ hne : evs ≠ [],
        (dElapse (runSeq appDelay st evs) appDelay).debounced
          = (evs.getLast hne).1)
    ∧ ((dUnmount (runSeq appDelay st evs)).timer = none
        ∧ (dUnmount (runSeq appDelay st evs)).debounced
            = (runSeq appDelay st evs).debounced)
    ∧ (∀ v : T, (dChange appDelay (runSeq appDelay st evs) v).timer
        = some (v, appDelay)) := by
  refine ⟨?_, ?_, ⟨rfl, rfl⟩, fun v => rfl⟩
  · intro a b hab
    refine runSeq_rapid_debounced appDelay a (fun p hp => h p ?_) st
    rw [hab]
    exact List.mem_append_left b hp
  · intro hne
    have ht := runSeq_rapid_timer appDelay evs h hne st
    unfold dElapse
    rw [ht]
    simp [Nat.sub_le]

/-- C8 at a concrete session: three keystrokes inside the window leave
the debounced value empty, and 300 quiet units later it is the final
text. -/
theorem useDebounce_rapid_sequence_witness :
    (runSeq appDelay dInit [("a", 100), ("ab", 200)]).debounced = ""
    ∧ (dElapse (runSeq appDelay dInit demoKeys) appDelay).debounced = "abc"
    ∧ (dUnmount (runSeq appDelay dInit demoKeys)).timer = none :=
  have h := useDebounce_rapid_sequence dInit demoKeys (by decide)
  ⟨h.1 [("a", 100), ("ab", 200)] [("abc", 50)] rfl,
   h.2.1 (by decide),
   h.2.2.1.1⟩

/-- C9: in every reachable state with Loading set, the URL input control
is rendered disabled, and a keystroke event leaves the state unchanged. -/
theorem loading_disables_input (s : AppState) (_hs : Reachable s)
    (h : s.isLoading = true) :
    inputDisabled s = true ∧ ∀ v, step s (Event.setUrl v) = s := by
  refine ⟨h, fun v => ?_⟩
  simp [step, h]

/-- C9 at the concrete mid-flight state reached by submitting the demo
URL. -/
theorem loading_disables_input_witness :
    inputDisabled loadingState = true
    ∧ step loadingState (Event.setUrl "") = loadingState :=
  have h := loading_disables_input loadingState ⟨loadingEvents, rfl⟩ (by decide)
  ⟨h.1, h.2 ""⟩

/-- C10: a handleSubmit invocation that aborts at either precondition
check modifies only the submission error slot: Loading, Summary, the raw
input URL, the validation error and the debounced URL are unchanged, no
request is issued, and a previously non-empty Summary stays non-empty. -/
theorem abort_frame (s : AppState) (o : FetchOutcome)
    (h : s.debouncedUrl = "" ∨ isValidBiliUrl s.debouncedUrl = false) :
    (handleSubmit s o).1.isLoading = s.isLoading
    ∧ (handleSubmit s o).1.summary = s.summary
    ∧ (handleSubmit s o).1.url = s.url
    ∧ (handleSubmit s o).1.urlError = s.urlError
    ∧ (handleSubmit s o).1.debouncedUrl = s.debouncedUrl
    ∧ (handleSubmit s o).2 = none
    ∧ (s.summary ≠ "" → (handleSubmit s o).1.summary ≠ "") := by
  rcases h with h | h
  · simp [handleSubmit, handleSubmitStart, h]
  · by_cases he : s.debouncedUrl = ""
    · simp [handleSubmit, handleSubmitStart, he]
    · simp [handleSubmit, handleSubmitStart, he, h]

/-- C10 at a concrete state: an aborted submission from a state holding
a summary keeps that summary non-empty and issues no request. -/
theorem abort_frame_witness :
    (handleSubmit sumState FetchOutcome.thrown).1.summary = sumState.summary
    ∧ (handleSubmit sumState FetchOutcome.thrown).2 = none
    ∧ (handleSubmit sumState FetchOutcome.thrown).1.summary ≠ "" :=
  have h := abort_frame sumState FetchOutcome.thrown (Or.inl rfl)
  ⟨h.2.1, h.2.2.2.2.2.1, h.2.2.2.2.2.2 (by decide)⟩

end BiliSummary
